/-
Verification of the Bond-film dashboard data pipeline
(src/dashboard/data_loader.py, config.py, charts.py, components.py,
bond_dashboard.py, pages/overview.py).

A pandas DataFrame is modelled as a list of row structures.  A float-typed
cell is modelled by `NumCell`: it is either missing (NaN), positive or
negative infinity, or a finite rational value.  String cells that may be
missing are `Option String`.  The release year is modelled as `Int`
(the pipeline converts it with `astype(int)` and all claims concern the
converted value).
-/
import Mathlib

namespace BondDashboard

/-- A float-valued cell of the CSV table: NaN, +inf, -inf, or a finite value. -/
inductive NumCell where
  | missing : NumCell
  | posInf : NumCell
  | negInf : NumCell
  | num : ℚ → NumCell
deriving DecidableEq, Repr

/-- `pd.DataFrame.replace([np.inf, -np.inf], np.nan)` on a single cell. -/
def replaceInfWithNaN : NumCell → NumCell
  | .posInf => .missing
  | .negInf => .missing
  | c => c

/-- `Series.notna()` on a single cell. -/
def NumCell.notna : NumCell → Bool
  | .missing => false
  | _ => true

/-- Pandas comparison `cell > x` (NaN compares false, +inf compares true). -/
def NumCell.pgt : NumCell → ℚ → Bool
  | .missing, _ => false
  | .posInf, _ => true
  | .negInf, _ => false
  | .num q, x => decide (x < q)

/-- Pandas comparison `cell >= x` (NaN compares false, +inf compares true). -/
def NumCell.pge : NumCell → ℚ → Bool
  | .missing, _ => false
  | .posInf, _ => true
  | .negInf, _ => false
  | .num q, x => decide (x ≤ q)

/-- An input row of the CSV file, as read by `pd.read_csv` (data_loader.py). -/
structure RawRow where
  leadActor : Option String
  primaryTitle : Option String
  originalTitle : Option String
  releaseYear : Int
  averageRating : NumCell
  numVotes : NumCell
  runtimeMinutes : NumCell
deriving DecidableEq, Repr

/-- A row of the cleaned table returned by `load_and_preprocess_data`:
the raw columns plus the derived `decade` and `is_bond_core` columns. -/
structure OutRow where
  leadActor : Option String
  primaryTitle : Option String
  originalTitle : Option String
  releaseYear : Int
  averageRating : NumCell
  numVotes : NumCell
  runtimeMinutes : NumCell
  decade : Int
  is_bond_core : Bool
deriving DecidableEq, Repr

/-- `EON_BOND_ACTORS` from config.py (lines 16-23). -/
def EON_BOND_ACTORS : List String :=
  ["Sean Connery", "George Lazenby", "Roger Moore",
   "Timothy Dalton", "Pierce Brosnan", "Daniel Craig"]

/-- `pat` occurs at the head of `s` (both as char lists). -/
def matchesAt : List Char → List Char → Bool
  | [], _ => true
  | _ :: _, [] => false
  | p :: ps, c :: cs => p == c && matchesAt ps cs

/-- `pat` occurs somewhere inside `s` (both as char lists). -/
def hasSubList (pat : List Char) : List Char → Bool
  | [] => matchesAt pat []
  | c :: cs => matchesAt pat (c :: cs) || hasSubList pat cs

/-- Case-insensitive substring test: `Series.str.contains(pat, case=False)`
for a plain (non-regex) pattern.  Both strings are lowercased
character-wise before the substring search. -/
def strContainsCI (s pat : String) : Bool :=
  hasSubList (pat.data.map Char.toLower) (s.data.map Char.toLower)

/-- `Series.str.contains('Bond|007', case=False, na=False)` on one cell:
the regex alternation matches iff the string contains "Bond" or "007"
case-insensitively; a missing cell yields False (`na=False`). -/
def hasBondMarker : Option String → Bool
  | none => false
  | some s => strContainsCI s "Bond" || strContainsCI s "007"

/-- `Series.isin(actors)` on one `leadActor` cell (NaN is in no list). -/
def actorIsin (cell : Option String) (actors : List String) : Bool :=
  match cell with
  | none => false
  | some a => actors.contains a

/-- One iteration of the numeric-column cleaning loop of
`load_and_preprocess_data` (data_loader.py lines 24-32): replace ±inf by
NaN in the column, drop rows whose cell is NaN, and — for `numVotes` and
`runtimeMinutes` (`requirePos = true`) — keep only rows whose cell is > 0. -/
def cleanCol (get : RawRow → NumCell) (set : NumCell → RawRow → RawRow)
    (requirePos : Bool) (rows : List RawRow) : List RawRow :=
  let replaced := rows.map (fun r => set (replaceInfWithNaN (get r)) r)
  let kept := replaced.filter (fun r => (get r).notna)
  if requirePos then kept.filter (fun r => (get r).pgt 0) else kept

/-- Write the `averageRating` cell of a row. -/
def setRating (c : NumCell) (r : RawRow) : RawRow := { r with averageRating := c }

/-- Write the `numVotes` cell of a row. -/
def setVotes (c : NumCell) (r : RawRow) : RawRow := { r with numVotes := c }

/-- Write the `runtimeMinutes` cell of a row. -/
def setRuntime (c : NumCell) (r : RawRow) : RawRow := { r with runtimeMinutes := c }

/-- Steps 3 and 4 of `load_and_preprocess_data` on one row (data_loader.py
lines 34-43): `decade = releaseYear // 10 * 10` (Python floor division) and
`is_bond_core = leadActor.isin(EON_BOND_ACTORS) | primaryTitle-marker |
originalTitle-marker`. -/
def deriveRow (r : RawRow) : OutRow :=
  { leadActor := r.leadActor
    primaryTitle := r.primaryTitle
    originalTitle := r.originalTitle
    releaseYear := r.releaseYear
    averageRating := r.averageRating
    numVotes := r.numVotes
    runtimeMinutes := r.runtimeMinutes
    decade := r.releaseYear.fdiv 10 * 10
    is_bond_core := actorIsin r.leadActor EON_BOND_ACTORS
      || hasBondMarker r.primaryTitle || hasBondMarker r.originalTitle }

/-- `load_and_preprocess_data` up to (and not including) the final
`numVotes >= 500` filter (data_loader.py lines 17-43): drop rows with a
missing `leadActor`, clean `averageRating`, `numVotes` and `runtimeMinutes`
in that order, then derive `decade` and `is_bond_core`. -/
def preVoteFloor (rows : List RawRow) : List OutRow :=
  let df := rows.filter (fun r => r.leadActor.isSome)
  let df := cleanCol (fun r => r.averageRating) setRating false df
  let df := cleanCol (fun r => r.numVotes) setVotes true df
  let df := cleanCol (fun r => r.runtimeMinutes) setRuntime true df
  df.map deriveRow

/-- `load_and_preprocess_data` (data_loader.py lines 14-48): the cleaning
and derivation pipeline followed by `df = df[df['numVotes'] >= 500]`. -/
def load_and_preprocess_data (rows : List RawRow) : List OutRow :=
  (preVoteFloor rows).filter (fun r => r.numVotes.pge 500)

/-- The "Apply ALL Filters" step of `render_dashboard`
(bond_dashboard.py lines 185-195): when at least one actor is selected and
the focus-filtered table is nonempty, keep exactly the rows whose
`leadActor` is in `selected_actors` and whose `releaseYear` lies in the
selected range; otherwise the result is an empty table. -/
def apply_all_filters (df_current : List OutRow) (selected_actors : List String)
    (yearLo yearHi : Int) : List OutRow :=
  if selected_actors ≠ [] ∧ df_current ≠ [] then
    df_current.filter (fun r =>
      actorIsin r.leadActor selected_actors
        && decide (yearLo ≤ r.releaseYear) && decide (r.releaseYear ≤ yearHi))
  else []

/-- The "Apply ALL Filters" step of `render_sidebar_filters`
(components.py lines 383-391): same filter expression, but the fallback
result is `None` rather than an empty table. -/
def render_sidebar_filters_result (df_current : List OutRow)
    (selected_actors : List String) (yearLo yearHi : Int) :
    Option (List OutRow) :=
  if selected_actors ≠ [] ∧ df_current ≠ [] then
    some (df_current.filter (fun r =>
      actorIsin r.leadActor selected_actors
        && decide (yearLo ≤ r.releaseYear) && decide (r.releaseYear ≤ yearHi)))
  else none

/-- The guard of `render_dashboard` in pages/overview.py (lines 42-44):
`if df_filtered is None or df_filtered.empty: warn and return`.  Returns
`true` exactly when the page goes on to render its charts. -/
def overview_renders_charts : Option (List OutRow) → Bool
  | none => false
  | some rows => !rows.isEmpty

/-- One aggregated row of the `groupby('leadActor')` result used by
`create_actor_performance_chart` (charts.py lines 61-64). -/
structure ActorAgg where
  leadActor : String
  averageRating : NumCell
  totalFilms : Nat
deriving DecidableEq, Repr

/-- Insert a string into a sorted list of strings (ascending). -/
def insertSorted (s : String) : List String → List String
  | [] => [s]
  | t :: ts => if s ≤ t then s :: t :: ts else t :: insertSorted s ts

/-- Sort a list of strings ascending (pandas groupby sorts group keys). -/
def sortStrings : List String → List String
  | [] => []
  | s :: ss => insertSorted s (sortStrings ss)

/-- Group keys of `df.groupby('leadActor')`: the distinct non-missing
`leadActor` values, sorted ascending (rows with a missing key are
excluded from pandas groups). -/
def groupKeys (df : List OutRow) : List String :=
  sortStrings (df.filterMap (fun r => r.leadActor)).dedup

/-- `agg(averageRating=('averageRating','mean'))` over one group: the mean
of the finite values, skipping NaN (pandas `skipna` default); NaN when the
group holds no finite value. -/
def meanRating (rows : List OutRow) : NumCell :=
  let vals := rows.filterMap (fun r =>
    match r.averageRating with
    | .num q => some q
    | _ => none)
  match vals with
  | [] => .missing
  | _ => .num (vals.sum / (vals.length : ℚ))

/-- The aggregation computed by `create_actor_performance_chart`
(charts.py lines 61-64) and by `render_dashboard`
(bond_dashboard.py lines 234-237): group the filtered table by
`leadActor`, taking the mean of `averageRating` and the count of
non-missing `primaryTitle` values per group. -/
def create_actor_performance_agg (df_filtered : List OutRow) : List ActorAgg :=
  (groupKeys df_filtered).map (fun a =>
    let grp := df_filtered.filter (fun r => r.leadActor == some a)
    { leadActor := a
      averageRating := meanRating grp
      totalFilms := (grp.filter (fun r => r.primaryTitle.isSome)).length })

/-- `target_films` of `filter_to_specific_bond_films`
(charts.py lines 21-36): (year, title keywords, lead actor). -/
def target_films : List (Int × String × String) :=
  [(1981, "for your eyes only", "Roger Moore"),
   (1983, "octopussy", "Roger Moore"),
   (1985, "view to a kill", "Roger Moore"),
   (1987, "living daylights", "Timothy Dalton"),
   (1989, "licence to kill", "Timothy Dalton"),
   (1995, "goldeneye", "Pierce Brosnan"),
   (1997, "tomorrow never dies", "Pierce Brosnan"),
   (1999, "world is not enough", "Pierce Brosnan"),
   (2002, "die another day", "Pierce Brosnan"),
   (2006, "casino royale", "Daniel Craig"),
   (2008, "quantum of solace", "Daniel Craig"),
   (2012, "skyfall", "Daniel Craig"),
   (2015, "spectre", "Daniel Craig"),
   (2021, "no time to die", "Daniel Craig")]

/-- The row-selection predicate of the loop body of
`filter_to_specific_bond_films` (charts.py lines 42-45):
`releaseYear == year` and
`primaryTitle.str.lower().str.contains(keywords, case=False, na=False)`. -/
def matchesTarget (t : Int × String × String) (r : OutRow) : Bool :=
  r.releaseYear == t.1
    && (match r.primaryTitle with
        | none => false
        | some s => strContainsCI s t.2.1)

/-- One iteration of the loop of `filter_to_specific_bond_films`
(charts.py lines 40-50): the rows matching the target by year and title;
if the target's actor appears among their `leadActor` values, narrow to
those rows; contribute the first remaining row (`matches.iloc[0]`), or
nothing when no row matches. -/
def pickTarget (df : List OutRow) (t : Int × String × String) : Option OutRow :=
  let ms := df.filter (matchesTarget t)
  match ms with
  | [] => none
  | _ :: _ =>
    let narrowed :=
      if (ms.filterMap (fun r => r.leadActor)).contains t.2.2 then
        ms.filter (fun r => r.leadActor == some t.2.2)
      else ms
    narrowed.head?

/-- `filter_to_specific_bond_films` (charts.py lines 18-56): collect, in
target order, the row each target contributes (at most one per target);
an empty table results when no target matches. -/
def filter_to_specific_bond_films (df : List OutRow) : List OutRow :=
  target_films.filterMap (pickTarget df)

/-! ### Concrete rows used by counterexamples and witnesses -/

/-- A clean input row: canonical actor, marked title, valid numerics. -/
def sampleRaw : RawRow :=
  { leadActor := some "Daniel Craig"
    primaryTitle := some "Skyfall"
    originalTitle := some "Skyfall"
    releaseYear := 2012
    averageRating := .num 8
    numVotes := .num 600000
    runtimeMinutes := .num 143 }

/-- The cleaned row produced from `sampleRaw`. -/
def sampleOut : OutRow := deriveRow sampleRaw

/-- Input row refuting the literal reading of claim C1: the lead actor is
not canonical and the primary title holds no franchise marker, but the
original title does. -/
def c1Row : RawRow :=
  { leadActor := some "John Smith"
    primaryTitle := some "Never Again"
    originalTitle := some "James Bond returns"
    releaseYear := 1983
    averageRating := .num 7
    numVotes := .num 1000
    runtimeMinutes := .num 100 }

/-- The spec predicate "rating lies within the 0-10 IMDb range" on a cell:
a finite value between 0 and 10. -/
def ratingWithinBounds : NumCell → Bool
  | .num q => decide (0 ≤ q) && decide (q ≤ 10)
  | _ => false

/-- Input row refuting the bounded-rating part of claim C8: its rating 11
is finite and survives every cleaning step, yet lies outside 0-10. -/
def c8Row : RawRow :=
  { leadActor := some "Some Actor"
    primaryTitle := some "Plain Film"
    originalTitle := none
    releaseYear := 1965
    averageRating := .num 11
    numVotes := .num 600
    runtimeMinutes := .num 91 }

/-- A cleaned-table row matching the 1995 GoldenEye target of
`filter_to_specific_bond_films`. -/
def goldenEyeOut : OutRow :=
  { leadActor := some "Pierce Brosnan"
    primaryTitle := some "GoldenEye"
    originalTitle := some "GoldenEye"
    releaseYear := 1995
    averageRating := .num 7
    numVotes := .num 1000
    runtimeMinutes := .num 130
    decade := 1990
    is_bond_core := true }

/-! ### Helper lemmas about the cleaning pipeline -/

/-- Python `// 10 * 10` agrees with the mathematical floor of division
by ten. -/
lemma fdiv_ten_eq_floor (n : ℤ) : n.fdiv 10 = ⌊(n : ℚ) / 10⌋ := by
  rw [show ((10 : ℚ)) = ((10 : ℕ) : ℚ) by norm_num, Rat.floor_intCast_div_natCast]
  exact Int.fdiv_eq_ediv _ (by norm_num)

/-- Characterisation of a row surviving one numeric-column cleaning
iteration: its cell is non-missing, positive when required, and the row is
the inf-replacement of a row of the input list. -/
lemma mem_cleanCol {get : RawRow → NumCell} {set : NumCell → RawRow → RawRow}
    {rp : Bool} {l : List RawRow} {s : RawRow} (h : s ∈ cleanCol get set rp l) :
    (get s).notna = true ∧ (rp = true → (get s).pgt 0 = true) ∧
      ∃ t ∈ l, s = set (replaceInfWithNaN (get t)) t := by
  unfold cleanCol at h
  cases rp with
  | false =>
    simp only [Bool.false_eq_true, if_false, List.mem_filter, List.mem_map] at h
    obtain ⟨⟨t, ht, rfl⟩, hna⟩ := h
    exact ⟨hna, by simp, t, ht, rfl⟩
  | true =>
    simp only [if_true, List.mem_filter, List.mem_map] at h
    obtain ⟨⟨⟨t, ht, rfl⟩, hna⟩, hpos⟩ := h
    exact ⟨hna, fun _ => hpos, t, ht, rfl⟩

/-- A cell that is non-missing after inf-replacement is a finite value. -/
lemma replaceInf_notna_num {c : NumCell} (h : (replaceInfWithNaN c).notna = true) :
    ∃ q, replaceInfWithNaN c = .num q := by
  cases c with
  | num q => exact ⟨q, rfl⟩
  | missing => simp [replaceInfWithNaN, NumCell.notna] at h
  | posInf => simp [replaceInfWithNaN, NumCell.notna] at h
  | negInf => simp [replaceInfWithNaN, NumCell.notna] at h

/-- A finite cell passing the pandas `> 0` comparison is positive. -/
lemma pgt_zero_of_num {c : NumCell} {q : ℚ} (hc : c = .num q) (h : c.pgt 0 = true) :
    0 < q := by
  subst hc
  simpa [NumCell.pgt] using h

/-- Every row of the pipeline's output (before the vote floor) is the
derivation of a raw row whose rating is finite and whose vote count and
runtime are finite and positive. -/
lemma mem_preVoteFloor {rows : List RawRow} {r : OutRow} (h : r ∈ preVoteFloor rows) :
    ∃ s : RawRow, r = deriveRow s ∧
      (∃ q, s.averageRating = .num q) ∧
      (∃ q, s.numVotes = .num q ∧ 0 < q) ∧
      (∃ q, s.runtimeMinutes = .num q ∧ 0 < q) := by
  unfold preVoteFloor at h
  simp only [List.mem_map] at h
  obtain ⟨s3, hs3, rfl⟩ := h
  obtain ⟨hna3, hpos3, t2, ht2, rfl⟩ := mem_cleanCol hs3
  obtain ⟨hna2, hpos2, t1, ht1, rfl⟩ := mem_cleanCol ht2
  obtain ⟨hna1, -, t0, ht0, rfl⟩ := mem_cleanCol ht1
  have hna1' : (replaceInfWithNaN t0.averageRating).notna = true := by
    simpa [setRating] using hna1
  have hna2' : (replaceInfWithNaN t0.numVotes).notna = true := by
    simpa [setVotes, setRating] using hna2
  have hna3' : (replaceInfWithNaN t0.runtimeMinutes).notna = true := by
    simpa [setRuntime, setVotes, setRating] using hna3
  have hpos2' : (replaceInfWithNaN t0.numVotes).pgt 0 = true := by
    simpa [setVotes, setRating] using hpos2 rfl
  have hpos3' : (replaceInfWithNaN t0.runtimeMinutes).pgt 0 = true := by
    simpa [setRuntime, setVotes, setRating] using hpos3 rfl
  obtain ⟨q1, hq1⟩ := replaceInf_notna_num hna1'
  obtain ⟨q2, hq2⟩ := replaceInf_notna_num hna2'
  obtain ⟨q3, hq3⟩ := replaceInf_notna_num hna3'
  refine ⟨_, rfl, ⟨q1, ?_⟩, ⟨q2, ?_, pgt_zero_of_num hq2 hpos2'⟩,
    ⟨q3, ?_, pgt_zero_of_num hq3 hpos3'⟩⟩
  · simpa [setRuntime, setVotes, setRating] using hq1
  · simpa [setRuntime, setVotes, setRating] using hq2
  · simpa [setRuntime, setVotes, setRating] using hq3

/-! ### Claim theorems -/

/-- C1 (as stated) is false of the code: it is not the case that every
record of the cleaned table has `is_bond_core` true iff its lead actor is
canonical or its (primary) title contains the franchise marker — a row
whose marker appears only in the original title is also tagged.  Concrete
refutation at the one-row input `[c1Row]`. -/
theorem c1_counterexample :
    ¬ (∀ r ∈ load_and_preprocess_data [c1Row],
        (r.is_bond_core = true ↔
          (actorIsin r.leadActor EON_BOND_ACTORS = true ∨
            hasBondMarker r.primaryTitle = true))) := by
  decide

/-- C1 (amended): for every record of the cleaned table, `is_bond_core` is
true iff the lead actor is in `EON_BOND_ACTORS`, or the primary title or
the original title contains the franchise marker 'Bond' or '007'
case-insensitively. -/
theorem c1_is_bond_core_iff {rows : List RawRow} {r : OutRow}
    (h : r ∈ load_and_preprocess_data rows) :
    r.is_bond_core = true ↔
      (actorIsin r.leadActor EON_BOND_ACTORS = true ∨
        hasBondMarker r.primaryTitle = true ∨
        hasBondMarker r.originalTitle = true) := by
  obtain ⟨s, rfl, -, -, -⟩ := mem_preVoteFloor (List.mem_filter.mp h).1
  simp [deriveRow, Bool.or_eq_true, or_assoc]

/-- Witness for C1: the amended equivalence applied to the concrete
cleaned row of `[sampleRaw]`. -/
theorem c1_is_bond_core_iff_witness :
    sampleOut ∈ load_and_preprocess_data [sampleRaw] ∧
      (sampleOut.is_bond_core = true ↔
        (actorIsin sampleOut.leadActor EON_BOND_ACTORS = true ∨
          hasBondMarker sampleOut.primaryTitle = true ∨
          hasBondMarker sampleOut.originalTitle = true)) :=
  ⟨by decide, @c1_is_bond_core_iff [sampleRaw] sampleOut (by decide)⟩

/-- C2: for every record of the cleaned table, the derived `decade` column
equals the release year rounded down to the nearest multiple of ten,
`⌊year / 10⌋ * 10`. -/
theorem c2_decade_eq_floor {rows : List RawRow} {r : OutRow}
    (h : r ∈ load_and_preprocess_data rows) :
    r.decade = ⌊(r.releaseYear : ℚ) / 10⌋ * 10 := by
  obtain ⟨s, rfl, -, -, -⟩ := mem_preVoteFloor (List.mem_filter.mp h).1
  show s.releaseYear.fdiv 10 * 10 = ⌊(s.releaseYear : ℚ) / 10⌋ * 10
  rw [fdiv_ten_eq_floor]

/-- Witness for C2: the decade equation at the concrete cleaned row of
`[sampleRaw]`. -/
theorem c2_decade_eq_floor_witness :
    sampleOut ∈ load_and_preprocess_data [sampleRaw] ∧
      sampleOut.decade = ⌊(sampleOut.releaseYear : ℚ) / 10⌋ * 10 :=
  ⟨by decide, @c2_decade_eq_floor [sampleRaw] sampleOut (by decide)⟩

/-- C3: every record of the cleaned table has a finite, strictly positive
vote count and runtime — rows whose vote count or runtime was missing,
non-finite or non-positive were dropped during cleaning. -/
theorem c3_votes_runtime_positive {rows : List RawRow} {r : OutRow}
    (h : r ∈ load_and_preprocess_data rows) :
    (∃ v, r.numVotes = .num v ∧ 0 < v) ∧
      (∃ t, r.runtimeMinutes = .num t ∧ 0 < t) := by
  obtain ⟨s, rfl, -, hv, ht⟩ := mem_preVoteFloor (List.mem_filter.mp h).1
  exact ⟨hv, ht⟩

/-- Witness for C3: positivity at the concrete cleaned row of
`[sampleRaw]`. -/
theorem c3_votes_runtime_positive_witness :
    sampleOut ∈ load_and_preprocess_data [sampleRaw] ∧
      ((∃ v, sampleOut.numVotes = .num v ∧ 0 < v) ∧
        (∃ t, sampleOut.runtimeMinutes = .num t ∧ 0 < t)) :=
  ⟨by decide, @c3_votes_runtime_positive [sampleRaw] sampleOut (by decide)⟩

/-- C4: the minimum-vote-count floor is the final filtering step — every
record of the returned table passes `numVotes >= 500`, and every record
surviving all earlier cleaning steps whose vote count passes the floor is
in the returned table. -/
theorem c4_vote_floor (rows : List RawRow) :
    (∀ r ∈ load_and_preprocess_data rows, r.numVotes.pge 500 = true) ∧
      (∀ r ∈ preVoteFloor rows,
        r.numVotes.pge 500 = true → r ∈ load_and_preprocess_data rows) := by
  constructor
  · intro r hr
    exact (List.mem_filter.mp hr).2
  · intro r hr hge
    exact List.mem_filter.mpr ⟨hr, hge⟩

/-- Witness for C4: both directions of the vote floor at the concrete
one-row input `[sampleRaw]`. -/
theorem c4_vote_floor_witness :
    sampleOut.numVotes.pge 500 = true ∧
      sampleOut ∈ load_and_preprocess_data [sampleRaw] :=
  ⟨(c4_vote_floor [sampleRaw]).1 sampleOut (by decide),
    (c4_vote_floor [sampleRaw]).2 sampleOut (by decide) (by decide)⟩

/-- The `isin` test against an empty selection always fails. -/
lemma actorIsin_nil (c : Option String) : actorIsin c [] = false := by
  cases c <;> rfl

/-- C5: the actor/year filtering step returns exactly the records of the
current table whose lead actor is in the selected set and whose release
year lies within the selected range. -/
theorem c5_filter_intersection (df : List OutRow) (sel : List String)
    (lo hi : Int) (r : OutRow) :
    r ∈ apply_all_filters df sel lo hi ↔
      (r ∈ df ∧ actorIsin r.leadActor sel = true ∧
        lo ≤ r.releaseYear ∧ r.releaseYear ≤ hi) := by
  unfold apply_all_filters
  split
  · simp [List.mem_filter, and_assoc]
  · next hcond =>
    simp only [List.not_mem_nil, false_iff]
    rintro ⟨hdf, hsel, -, -⟩
    rcases not_and_or.mp hcond with h | h
    · rw [not_not] at h
      rw [h, actorIsin_nil] at hsel
      exact Bool.false_ne_true hsel
    · rw [not_not] at h
      subst h
      exact List.not_mem_nil r hdf

/-- Witness for C5: a concrete record inside the intersection appears in
the filtered result. -/
theorem c5_filter_intersection_witness :
    sampleOut ∈ apply_all_filters [sampleOut] ["Daniel Craig"] 2000 2020 :=
  (c5_filter_intersection [sampleOut] ["Daniel Craig"] 2000 2020 sampleOut).mpr
    ⟨by decide, by decide, by decide, by decide⟩

/-- C6: the group-by-actor aggregation (mean rating and title count per
lead actor) of an empty filtered table is the empty aggregation, computed
without error. -/
theorem c6_empty_aggregation : create_actor_performance_agg [] = [] := rfl

/-- C7: `load_and_preprocess_data` is deterministic — run on the same
input rows it produces the identical cleaned table. -/
theorem c7_deterministic (rows1 rows2 : List RawRow) (h : rows1 = rows2) :
    load_and_preprocess_data rows1 = load_and_preprocess_data rows2 :=
  congrArg load_and_preprocess_data h

/-- Witness for C7: determinism at the concrete input `[sampleRaw]`. -/
theorem c7_deterministic_witness :
    load_and_preprocess_data [sampleRaw] = load_and_preprocess_data [sampleRaw] :=
  c7_deterministic [sampleRaw] [sampleRaw] rfl

/-- C8 (as stated) is false of the code: the cleaning pipeline never
enforces the 0-10 rating bound — the finite out-of-range rating 11 of
`c8Row` survives every cleaning step.  Concrete refutation at the one-row
input `[c8Row]`. -/
theorem c8_counterexample :
    ¬ (∀ r ∈ load_and_preprocess_data [c8Row],
        ratingWithinBounds r.averageRating = true) := by
  decide

/-- C8 (amended): every record of the cleaned table has a numeric, finite
`averageRating` (a rational value — not missing and not ±infinity); no
fixed 0-10 bound is enforced by the code. -/
theorem c8_rating_finite {rows : List RawRow} {r : OutRow}
    (h : r ∈ load_and_preprocess_data rows) :
    ∃ q : ℚ, r.averageRating = .num q := by
  obtain ⟨s, rfl, hq, -, -⟩ := mem_preVoteFloor (List.mem_filter.mp h).1
  exact hq

/-- Witness for C8: finiteness of the rating at the concrete cleaned row
of `[sampleRaw]`. -/
theorem c8_rating_finite_witness :
    sampleOut ∈ load_and_preprocess_data [sampleRaw] ∧
      ∃ q : ℚ, sampleOut.averageRating = .num q :=
  ⟨by decide, @c8_rating_finite [sampleRaw] sampleOut (by decide)⟩

/-- A row contributed by a loop iteration of
`filter_to_specific_bond_films` comes from the input table and matches the
iteration's target by year and title keyword. -/
lemma pickTarget_mem_and_matches {df : List OutRow} {t : Int × String × String}
    {r : OutRow} (h : pickTarget df t = some r) :
    r ∈ df ∧ matchesTarget t r = true := by
  have hr : r ∈ df.filter (matchesTarget t) := by
    simp only [pickTarget] at h
    rcases hms : df.filter (matchesTarget t) with _ | ⟨m, rest⟩
    · rw [hms] at h
      exact absurd h (by simp)
    · rw [hms] at h
      have h' : (if (List.filterMap (fun r => r.leadActor) (m :: rest)).contains t.2.2 = true then
            List.filter (fun r => r.leadActor == some t.2.2) (m :: rest)
          else m :: rest).head? = some r := h
      split at h'
      · exact List.filter_subset' _ (List.mem_of_mem_head? h')
      · exact List.mem_of_mem_head? h'
  have h2 := List.mem_filter.mp hr
  exact ⟨h2.1, h2.2⟩

/-- C9: `filter_to_specific_bond_films` returns at most 14 rows — at most
one per target film; every returned row has the release year of one of the
14 targets and a primary title containing that target's keyword
case-insensitively; and when no target matches, the result is the empty
table (no error). -/
theorem c9_specific_films (df : List OutRow) :
    (filter_to_specific_bond_films df).length ≤ 14 ∧
    (∀ r ∈ filter_to_specific_bond_films df,
      ∃ t ∈ target_films, r.releaseYear = t.1 ∧
        ∃ title, r.primaryTitle = some title ∧ strContainsCI title t.2.1 = true) ∧
    ((∀ t ∈ target_films, pickTarget df t = none) →
      filter_to_specific_bond_films df = []) := by
  refine ⟨?_, ?_, ?_⟩
  · have h := List.length_filterMap_le (pickTarget df) target_films
    exact le_trans h (by decide)
  · intro r hr
    obtain ⟨t, ht, hpick⟩ := List.mem_filterMap.mp hr
    obtain ⟨-, hmatch⟩ := pickTarget_mem_and_matches hpick
    simp only [matchesTarget, Bool.and_eq_true, beq_iff_eq] at hmatch
    obtain ⟨hyear, htitle⟩ := hmatch
    refine ⟨t, ht, hyear, ?_⟩
    rcases hpt : r.primaryTitle with _ | title
    · rw [hpt] at htitle
      simp at htitle
    · rw [hpt] at htitle
      exact ⟨title, rfl, htitle⟩
  · intro hall
    exact List.filterMap_eq_nil_iff.mpr hall

/-- Witness for C9: the concrete GoldenEye row returned from the one-row
table `[goldenEyeOut]` matches a target's year and keyword. -/
theorem c9_specific_films_witness :
    ∃ t ∈ target_films, goldenEyeOut.releaseYear = t.1 ∧
      ∃ title, goldenEyeOut.primaryTitle = some title ∧
        strContainsCI title t.2.1 = true :=
  (c9_specific_films [goldenEyeOut]).2.1 goldenEyeOut (by decide)

/-- C10: `render_sidebar_filters` yields `None` (not an empty table)
whenever no actor is selected or the focus-filtered table is empty, and
the overview page's guard treats a `None` or empty filtered result as the
placeholder state, rendering no chart. -/
theorem c10_none_and_placeholder (df : List OutRow) (sel : List String)
    (lo hi : Int) :
    ((sel = [] ∨ df = []) → render_sidebar_filters_result df sel lo hi = none) ∧
    (∀ res : Option (List OutRow), (res = none ∨ res = some []) →
      overview_renders_charts res = false) := by
  constructor
  · intro h
    rcases h with h | h <;> subst h <;> simp [render_sidebar_filters_result]
  · rintro res (rfl | rfl) <;> rfl

/-- Witness for C10: an empty actor selection over a concrete nonempty
table yields `None`, and the overview guard suppresses rendering on it. -/
theorem c10_none_and_placeholder_witness :
    render_sidebar_filters_result [sampleOut] [] 1960 2025 = none ∧
      overview_renders_charts none = false :=
  ⟨(c10_none_and_placeholder [sampleOut] [] 1960 2025).1 (Or.inl rfl),
    (c10_none_and_placeholder [sampleOut] [] 1960 2025).2 none (Or.inl rfl)⟩

end BondDashboard
